import Mathlib

set_option maxRecDepth 100000

/-!
Verification of the minesweeper board state machine and controller in
`mines.py` (classes `Board` and `Controller`).

The board grid is a numpy `int8` array of cell-state bitsets; the embedding
models it as a total function from integer coordinates to cell values,
together with the stored `height` and `width`.  All cell values produced by
the game stay in `0..7`, so no `int8` overflow can occur and plain `Nat`
values are faithful.  The recursive flood fill of `sweep_cell` is embedded
with an explicit fuel parameter; a theorem below shows that every fuel of at
least `height * width` yields the same result, which is the termination
argument of the original recursion.
-/

namespace Mines

/-- Cell bit for a revealed cell (`Board.SWEEPED = 1`). -/
def SWEEPED : Nat := 1

/-- Cell bit for a flag (`Board.FLAGGED = 2`). -/
def FLAGGED : Nat := 2

/-- Cell bit for a mine (`Board.MINE = 4`). -/
def MINE : Nat := 4

/-- Exceptions that the Python runtime can raise in the modelled code:
`IndexError` from a numpy array access past the end, and `ValueError`
from `np.zeros` on a negative dimension. -/
inductive PyError where
  | indexError : PyError
  | valueError : PyError
deriving DecidableEq

/-- The game board: stored dimensions and the grid of cell bitsets.
The grid is kept as a total function on integer coordinates; the game only
ever reads and writes coordinates resolved against the stored shape. -/
structure Board where
  height : Nat
  width : Nat
  grid : Int → Int → Nat

/-- Overwrite one grid cell (a numpy `self.grid[coord] = v` at an already
resolved, in-bounds coordinate). -/
def Board.setCell (b : Board) (coord : Int × Int) (v : Nat) : Board :=
  { b with grid := fun i j => if i = coord.1 ∧ j = coord.2 then v else b.grid i j }

/-- numpy index resolution for one axis of an array of length `n`:
`0 ≤ i < n` is used as is, `-n ≤ i < 0` wraps to `i + n`, anything else
raises `IndexError`. -/
def npIndex (n : Nat) (i : Int) : Option Nat :=
  if 0 ≤ i ∧ i < (n : Int) then some i.toNat
  else if -(n : Int) ≤ i ∧ i < 0 then some (i + n).toNat
  else none

/-- `Board.__init__`: stores the two dimensions and allocates the grid with
`np.zeros`, which raises `ValueError` for a negative dimension and otherwise
returns an all-zero array (empty when a dimension is zero).  There is no
other validation. -/
def Board.init (size : Int × Int) : Except PyError Board :=
  if size.1 < 0 ∨ size.2 < 0 then .error .valueError
  else .ok { height := size.1.toNat, width := size.2.toNat, grid := fun _ _ => 0 }

/-- `Board.cell_mines`: 1 when the coordinate is in bounds and carries the
`MINE` bit, 0 otherwise (explicit bounds check in the source). -/
def Board.cell_mines (b : Board) (coord : Int × Int) : Nat :=
  if coord.1 < 0 ∨ (b.height : Int) ≤ coord.1 ∨ coord.2 < 0 ∨ (b.width : Int) ≤ coord.2 then 0
  else if b.grid coord.1 coord.2 &&& MINE ≠ 0 then 1 else 0

/-- `Board.get_adjacents`: the 8 neighbour coordinates, in source order. -/
def get_adjacents (coord : Int × Int) : List (Int × Int) :=
  [ (coord.1 - 1, coord.2 - 1),
    (coord.1,     coord.2 - 1),
    (coord.1 + 1, coord.2 - 1),
    (coord.1 - 1, coord.2),
    (coord.1 + 1, coord.2),
    (coord.1 - 1, coord.2 + 1),
    (coord.1,     coord.2 + 1),
    (coord.1 + 1, coord.2 + 1) ]

/-- `Board.count_adjacent`: total of `cell_mines` over the 8 neighbours. -/
def Board.count_adjacent (b : Board) (coord : Int × Int) : Nat :=
  (get_adjacents coord).foldl (fun r a => r + b.cell_mines a) 0

/-- `Board.mine_count`: number of mines on the board, summed with the
bounds-checked `cell_mines` query. -/
def Board.mine_count (b : Board) : Nat :=
  (List.range b.height).foldl
    (fun r i => (List.range b.width).foldl
      (fun r' j => r' + b.cell_mines ((i : Int), (j : Int))) r) 0

/-- `Board.flag_count`: number of cells with the `FLAGGED` bit. -/
def Board.flag_count (b : Board) : Nat :=
  (List.range b.height).foldl
    (fun r i => (List.range b.width).foldl
      (fun r' j => if b.grid (i : Int) (j : Int) &&& FLAGGED ≠ 0 then r' + 1 else r') r) 0

/-- `Board.correct_flag_count`: number of flagged cells that hold a mine. -/
def Board.correct_flag_count (b : Board) : Nat :=
  (List.range b.height).foldl
    (fun r i => (List.range b.width).foldl
      (fun r' j =>
        if b.grid (i : Int) (j : Int) &&& FLAGGED ≠ 0 then
          r' + b.cell_mines ((i : Int), (j : Int))
        else r') r) 0

/-- `Board.fully_sweeped`: scans every cell; an unswept cell is allowed only
when it is flagged and `cell_mines` is positive, otherwise the scan fails. -/
def Board.fully_sweeped (b : Board) : Bool :=
  (List.range b.height).all fun i =>
    (List.range b.width).all fun j =>
      let cell := b.grid (i : Int) (j : Int)
      if cell &&& SWEEPED = 0 then
        decide (cell &&& FLAGGED ≠ 0) && decide (0 < b.cell_mines ((i : Int), (j : Int)))
      else true

/-- `Board.mine_triggered`: some cell has both `SWEEPED` and `MINE`. -/
def Board.mine_triggered (b : Board) : Bool :=
  (List.range b.height).any fun i =>
    (List.range b.width).any fun j =>
      decide (b.grid (i : Int) (j : Int) &&& SWEEPED ≠ 0) &&
        decide (b.grid (i : Int) (j : Int) &&& MINE ≠ 0)

/-- `Board.sweep_cell`: bounds check, then no-op on a swept or flagged cell,
otherwise set `SWEEPED`, and when the cell has no mine and no adjacent mines
sweep all 8 neighbours in source order (the body of
`sweep_adjacent_cells`, whose summed return value the source discards
here).  Returns the mine count of the cell itself together with the updated
board.  The fuel argument bounds the recursion depth of the embedding; the
Python original recurses freely, and `sweep_cell_fuel_bounded` shows that
any fuel of at least `height * width` gives one and the same result. -/
def sweep_cell : Nat → Board → Int × Int → Nat × Board
  | 0, b, _ => (0, b)
  | fuel + 1, b, coord =>
    if coord.1 < 0 ∨ (b.height : Int) ≤ coord.1 ∨ coord.2 < 0 ∨ (b.width : Int) ≤ coord.2 then
      (0, b)
    else
      let cell := b.grid coord.1 coord.2
      if cell &&& SWEEPED ≠ 0 ∨ cell &&& FLAGGED ≠ 0 then (0, b)
      else
        let b1 := b.setCell coord (cell ||| SWEEPED)
        let mines := b1.cell_mines coord
        let adjacent := b1.count_adjacent coord
        if mines = 0 ∧ adjacent = 0 then
          let s1 := sweep_cell fuel b1 (coord.1 - 1, coord.2 - 1)
          let s2 := sweep_cell fuel s1.2 (coord.1, coord.2 - 1)
          let s3 := sweep_cell fuel s2.2 (coord.1 + 1, coord.2 - 1)
          let s4 := sweep_cell fuel s3.2 (coord.1 - 1, coord.2)
          let s5 := sweep_cell fuel s4.2 (coord.1 + 1, coord.2)
          let s6 := sweep_cell fuel s5.2 (coord.1 - 1, coord.2 + 1)
          let s7 := sweep_cell fuel s6.2 (coord.1, coord.2 + 1)
          let s8 := sweep_cell fuel s7.2 (coord.1 + 1, coord.2 + 1)
          (mines, s8.2)
        else (mines, b1)

/-- Sweep a list of coordinates in order, threading the board and adding up
the returned mine counts. -/
def sweepChain (fuel : Nat) : Board → List (Int × Int) → Nat × Board
  | b, [] => (0, b)
  | b, c :: cs =>
    let r := sweep_cell fuel b c
    let rr := sweepChain fuel r.2 cs
    (r.1 + rr.1, rr.2)

/-- `Board.sweep_adjacent_cells`: sweep each of the 8 neighbours in source
order, returning the total number of mines found. -/
def sweep_adjacent_cells (fuel : Nat) (b : Board) (coord : Int × Int) : Nat × Board :=
  sweepChain fuel b (get_adjacents coord)

/-- `Board.flag_cell`: reads and writes `self.grid[coord]` with raw numpy
indexing (no bounds check of its own) and toggles the `FLAGGED` bit with
xor.  An unresolvable coordinate raises `IndexError`. -/
def Board.flag_cell (b : Board) (coord : Int × Int) : Except PyError Board :=
  match npIndex b.height coord.1, npIndex b.width coord.2 with
  | some i, some j =>
    .ok (b.setCell ((i : Int), (j : Int)) (b.grid (i : Int) (j : Int) ^^^ FLAGGED))
  | _, _ => .error .indexError

/-- `Board.reveal_all_mines`: set `SWEEPED` on every in-bounds cell holding
the `MINE` bit, leaving every other cell unchanged. -/
def Board.reveal_all_mines (b : Board) : Board :=
  { b with grid := fun i j =>
      if 0 ≤ i ∧ i < (b.height : Int) ∧ 0 ≤ j ∧ j < (b.width : Int) ∧
          b.grid i j &&& MINE ≠ 0 then
        b.grid i j ||| SWEEPED
      else b.grid i j }

/-- The controller: cursor position, the board, and the `alive` flag. -/
structure Controller where
  cursor : Int × Int
  board : Board
  alive : Bool

/-- `Controller.__init__`: cursor at the board centre by floor division,
`alive` true. -/
def Controller.init (b : Board) : Controller :=
  { cursor := (((b.height / 2 : Nat) : Int), ((b.width / 2 : Nat) : Int))
    board := b
    alive := true }

/-- `Controller.get_cursor`: the cursor pair. -/
def Controller.get_cursor (c : Controller) : Int × Int :=
  (c.cursor.1, c.cursor.2)

/-- `Controller.move_cursor`: each axis is updated only when the moved value
stays inside the board; the two axes are checked independently. -/
def Controller.move_cursor (c : Controller) (direction : Int × Int) : Controller :=
  let new_i := c.cursor.1 + direction.1
  let c1 :=
    if 0 ≤ new_i ∧ new_i < (c.board.height : Int) then
      { c with cursor := (new_i, c.cursor.2) }
    else c
  let new_j := c1.cursor.2 + direction.2
  if 0 ≤ new_j ∧ new_j < (c1.board.width : Int) then
    { c1 with cursor := (c1.cursor.1, new_j) }
  else c1

/-- `Controller.explode_maybe`: when at least one mine was found, reveal all
mines and clear `alive`. -/
def Controller.explode_maybe (c : Controller) (mines : Nat) : Controller :=
  if 0 < mines then { c with board := c.board.reveal_all_mines, alive := false }
  else c

/-- `Controller.sweep_one`: sweep the cell under the cursor, then the
explosion check.  The fuel is the sufficient bound `height * width + 1`. -/
def Controller.sweep_one (c : Controller) : Controller :=
  let r := sweep_cell (c.board.height * c.board.width + 1) c.board c.get_cursor
  Controller.explode_maybe { c with board := r.2 } r.1

/-- `Controller.sweep_many`: sweep the cell under the cursor and all its
neighbours, adding up the mines found, then the explosion check. -/
def Controller.sweep_many (c : Controller) : Controller :=
  let r := sweep_cell (c.board.height * c.board.width + 1) c.board c.get_cursor
  let r2 := sweep_adjacent_cells (c.board.height * c.board.width + 1) r.2 c.get_cursor
  Controller.explode_maybe { c with board := r2.2 } (r.1 + r2.1)

/-- `Controller.flag`: flag the cell under the cursor.  The cursor is always
in bounds, so the `IndexError` arm is unreachable during play; the
embedding leaves the controller unchanged there (the Python call would
propagate the exception). -/
def Controller.flag (c : Controller) : Controller :=
  match c.board.flag_cell c.get_cursor with
  | .ok b => { c with board := b }
  | .error _ => c

/-- Key code of `h` in ASCII; `curses.KEY_LEFT` is 260. -/
def keyLeft : Nat × Nat := (104, 260)

/-- Key code of `l` in ASCII; `curses.KEY_RIGHT` is 261. -/
def keyRight : Nat × Nat := (108, 261)

/-- Key code of `k` in ASCII; `curses.KEY_UP` is 259. -/
def keyUp : Nat × Nat := (107, 259)

/-- Key code of `j` in ASCII; `curses.KEY_DOWN` is 258. -/
def keyDown : Nat × Nat := (106, 258)

/-- `Controller.key_press`: dispatch one key code to the matching action and
report whether the main loop should continue.  Only the `q` arm stops the
loop; no arm consults `alive`. -/
def Controller.key_press (c : Controller) (k : Nat) : Controller × Bool :=
  if k = keyLeft.1 ∨ k = keyLeft.2 then (c.move_cursor (0, -1), true)
  else if k = keyRight.1 ∨ k = keyRight.2 then (c.move_cursor (0, 1), true)
  else if k = keyUp.1 ∨ k = keyUp.2 then (c.move_cursor (-1, 0), true)
  else if k = keyDown.1 ∨ k = keyDown.2 then (c.move_cursor (1, 0), true)
  else if k = 47 ∨ k = 120 then (c.flag, true)
  else if k = 32 then (c.sweep_one, true)
  else if k = 10 then (c.sweep_many, true)
  else if k = 113 then (c, false)
  else (c, true)

/-- The 3-by-3 board of the concrete flood-fill scenario: a single mine at
`(0, 0)` and nothing else. -/
def board3 : Board :=
  { height := 3, width := 3, grid := fun i j => if i = 0 ∧ j = 0 then MINE else 0 }

/-- The cursor is inside the board of its own controller. -/
def Controller.cursor_ok (c : Controller) : Prop :=
  0 ≤ c.cursor.1 ∧ c.cursor.1 < (c.board.height : Int) ∧
    0 ≤ c.cursor.2 ∧ c.cursor.2 < (c.board.width : Int)

/-! ### Ghost measure: the number of unswept in-bounds cells -/

/-- Number of in-bounds cells without the `SWEEPED` bit.  This is the
measure that bounds the flood-fill recursion. -/
def unsweptCount (b : Board) : Nat :=
  ((Finset.range b.height ×ˢ Finset.range b.width).filter
    (fun p : Nat × Nat => b.grid (p.1 : Int) (p.2 : Int) &&& SWEEPED = 0)).card

theorem unsweptCount_le (b : Board) : unsweptCount b ≤ b.height * b.width := by
  unfold unsweptCount
  refine le_trans (Finset.card_filter_le _ _) ?_
  rw [Finset.card_product, Finset.card_range, Finset.card_range]

theorem swept_of_unsweptCount_zero (b : Board) (h : unsweptCount b = 0) (i j : Int)
    (hi : 0 ≤ i) (hih : i < (b.height : Int)) (hj : 0 ≤ j) (hjw : j < (b.width : Int)) :
    b.grid i j &&& SWEEPED ≠ 0 := by
  intro hzero
  have hmem : (i.toNat, j.toNat) ∈
      (Finset.range b.height ×ˢ Finset.range b.width).filter
        (fun p : Nat × Nat => b.grid (p.1 : Int) (p.2 : Int) &&& SWEEPED = 0) := by
    rw [Finset.mem_filter, Finset.mem_product, Finset.mem_range, Finset.mem_range]
    refine ⟨⟨by omega, by omega⟩, ?_⟩
    rwa [Int.toNat_of_nonneg hi, Int.toNat_of_nonneg hj]
  have hpos : 0 < unsweptCount b := Finset.card_pos.mpr ⟨_, hmem⟩
  omega

theorem unsweptCount_setCell (b : Board) (coord : Int × Int) (v : Nat)
    (hi : 0 ≤ coord.1) (hih : coord.1 < (b.height : Int))
    (hj : 0 ≤ coord.2) (hjw : coord.2 < (b.width : Int))
    (hun : b.grid coord.1 coord.2 &&& SWEEPED = 0) (hv : v &&& SWEEPED ≠ 0) :
    unsweptCount (b.setCell coord v) + 1 = unsweptCount b := by
  classical
  have hxmem : (coord.1.toNat, coord.2.toNat) ∈
      (Finset.range b.height ×ˢ Finset.range b.width).filter
        (fun p : Nat × Nat => b.grid (p.1 : Int) (p.2 : Int) &&& SWEEPED = 0) := by
    rw [Finset.mem_filter, Finset.mem_product, Finset.mem_range, Finset.mem_range]
    refine ⟨⟨by omega, by omega⟩, ?_⟩
    rwa [Int.toNat_of_nonneg hi, Int.toNat_of_nonneg hj]
  have hgx : (b.setCell coord v).grid ((coord.1.toNat : Nat) : Int) ((coord.2.toNat : Nat) : Int)
      = v := by
    simp only [Board.setCell]
    rw [if_pos ⟨Int.toNat_of_nonneg hi, Int.toNat_of_nonneg hj⟩]
  have hgq : ∀ q : Nat × Nat, q ≠ (coord.1.toNat, coord.2.toNat) →
      (b.setCell coord v).grid (q.1 : Int) (q.2 : Int) = b.grid (q.1 : Int) (q.2 : Int) := by
    intro q hq
    simp only [Board.setCell]
    rw [if_neg]
    rintro ⟨h1, h2⟩
    apply hq
    have e1 : q.1 = coord.1.toNat := by omega
    have e2 : q.2 = coord.2.toNat := by omega
    rw [Prod.ext_iff]
    exact ⟨e1, e2⟩
  have hset :
      ((Finset.range b.height ×ˢ Finset.range b.width).filter
        (fun p : Nat × Nat => (b.setCell coord v).grid (p.1 : Int) (p.2 : Int) &&& SWEEPED = 0)) =
      ((Finset.range b.height ×ˢ Finset.range b.width).filter
        (fun p : Nat × Nat => b.grid (p.1 : Int) (p.2 : Int) &&& SWEEPED = 0)).erase
        (coord.1.toNat, coord.2.toNat) := by
    ext q
    rw [Finset.mem_erase, Finset.mem_filter, Finset.mem_filter]
    by_cases hq : q = (coord.1.toNat, coord.2.toNat)
    · subst hq
      rw [hgx]
      constructor
      · rintro ⟨-, hv0⟩; exact absurd hv0 hv
      · rintro ⟨hne, -⟩; exact absurd rfl hne
    · rw [hgq q hq]
      constructor
      · rintro ⟨hs, hp⟩; exact ⟨hq, hs, hp⟩
      · rintro ⟨-, hs, hp⟩; exact ⟨hs, hp⟩
  unfold unsweptCount
  rw [show (b.setCell coord v).height = b.height from rfl,
    show (b.setCell coord v).width = b.width from rfl, hset,
    Finset.card_erase_of_mem hxmem]
  have hpos : 0 < ((Finset.range b.height ×ˢ Finset.range b.width).filter
      (fun p : Nat × Nat => b.grid (p.1 : Int) (p.2 : Int) &&& SWEEPED = 0)).card :=
    Finset.card_pos.mpr ⟨_, hxmem⟩
  omega

theorem lor_SWEEPED_test (x : Nat) : (x ||| SWEEPED) &&& SWEEPED ≠ 0 := by
  have h : (x ||| 1) &&& 1 = 1 := by simp [Nat.and_one_is_mod]
  simp [SWEEPED, h]

/-! ### Branch equations for `sweep_cell` -/

theorem sweep_cell_oob (fuel : Nat) (b : Board) (coord : Int × Int)
    (h : coord.1 < 0 ∨ (b.height : Int) ≤ coord.1 ∨ coord.2 < 0 ∨ (b.width : Int) ≤ coord.2) :
    sweep_cell (fuel + 1) b coord = (0, b) := by
  simp only [sweep_cell]
  rw [if_pos h]

theorem sweep_cell_stop (fuel : Nat) (b : Board) (coord : Int × Int)
    (h : ¬(coord.1 < 0 ∨ (b.height : Int) ≤ coord.1 ∨ coord.2 < 0 ∨ (b.width : Int) ≤ coord.2))
    (h2 : b.grid coord.1 coord.2 &&& SWEEPED ≠ 0 ∨ b.grid coord.1 coord.2 &&& FLAGGED ≠ 0) :
    sweep_cell (fuel + 1) b coord = (0, b) := by
  simp only [sweep_cell]
  rw [if_neg h, if_pos h2]

theorem sweep_cell_go_flood (fuel : Nat) (b : Board) (coord : Int × Int)
    (h : ¬(coord.1 < 0 ∨ (b.height : Int) ≤ coord.1 ∨ coord.2 < 0 ∨ (b.width : Int) ≤ coord.2))
    (h2 : ¬(b.grid coord.1 coord.2 &&& SWEEPED ≠ 0 ∨ b.grid coord.1 coord.2 &&& FLAGGED ≠ 0))
    (h3 : (b.setCell coord (b.grid coord.1 coord.2 ||| SWEEPED)).cell_mines coord = 0 ∧
      (b.setCell coord (b.grid coord.1 coord.2 ||| SWEEPED)).count_adjacent coord = 0) :
    sweep_cell (fuel + 1) b coord =
      ((b.setCell coord (b.grid coord.1 coord.2 ||| SWEEPED)).cell_mines coord,
       (sweep_adjacent_cells fuel
         (b.setCell coord (b.grid coord.1 coord.2 ||| SWEEPED)) coord).2) := by
  simp only [sweep_cell, sweep_adjacent_cells, sweepChain, get_adjacents]
  rw [if_neg h, if_neg h2, if_pos h3]

theorem sweep_cell_go_stop (fuel : Nat) (b : Board) (coord : Int × Int)
    (h : ¬(coord.1 < 0 ∨ (b.height : Int) ≤ coord.1 ∨ coord.2 < 0 ∨ (b.width : Int) ≤ coord.2))
    (h2 : ¬(b.grid coord.1 coord.2 &&& SWEEPED ≠ 0 ∨ b.grid coord.1 coord.2 &&& FLAGGED ≠ 0))
    (h3 : ¬((b.setCell coord (b.grid coord.1 coord.2 ||| SWEEPED)).cell_mines coord = 0 ∧
      (b.setCell coord (b.grid coord.1 coord.2 ||| SWEEPED)).count_adjacent coord = 0)) :
    sweep_cell (fuel + 1) b coord =
      ((b.setCell coord (b.grid coord.1 coord.2 ||| SWEEPED)).cell_mines coord,
       b.setCell coord (b.grid coord.1 coord.2 ||| SWEEPED)) := by
  simp only [sweep_cell]
  rw [if_neg h, if_neg h2, if_neg h3]

/-! ### The flood fill can only sweep cells, never unsweep them -/

theorem unsweptCount_sweepChain_le (fuel : Nat)
    (H : ∀ (b : Board) (c : Int × Int), unsweptCount (sweep_cell fuel b c).2 ≤ unsweptCount b) :
    ∀ (cs : List (Int × Int)) (b : Board),
      unsweptCount (sweepChain fuel b cs).2 ≤ unsweptCount b := by
  intro cs
  induction cs with
  | nil => intro b; exact Nat.le_refl _
  | cons c cs ih =>
    intro b
    simp only [sweepChain]
    exact le_trans (ih _) (H b c)

theorem unsweptCount_sweep_cell_le : ∀ (fuel : Nat) (b : Board) (c : Int × Int),
    unsweptCount (sweep_cell fuel b c).2 ≤ unsweptCount b := by
  intro fuel
  induction fuel with
  | zero => intro b c; exact Nat.le_refl _
  | succ n ih =>
    intro b c
    by_cases h1 : c.1 < 0 ∨ (b.height : Int) ≤ c.1 ∨ c.2 < 0 ∨ (b.width : Int) ≤ c.2
    · rw [sweep_cell_oob n b c h1]
    · by_cases h2 : b.grid c.1 c.2 &&& SWEEPED ≠ 0 ∨ b.grid c.1 c.2 &&& FLAGGED ≠ 0
      · rw [sweep_cell_stop n b c h1 h2]
      · have hun : b.grid c.1 c.2 &&& SWEEPED = 0 := by tauto
        have hbounds := h1
        push_neg at hbounds
        have hdec : unsweptCount (b.setCell c (b.grid c.1 c.2 ||| SWEEPED)) + 1
            = unsweptCount b :=
          unsweptCount_setCell b c _ (by omega) (by omega) (by omega) (by omega) hun
            (lor_SWEEPED_test _)
        by_cases h3 : (b.setCell c (b.grid c.1 c.2 ||| SWEEPED)).cell_mines c = 0 ∧
            (b.setCell c (b.grid c.1 c.2 ||| SWEEPED)).count_adjacent c = 0
        · rw [sweep_cell_go_flood n b c h1 h2 h3]
          have hch := unsweptCount_sweepChain_le n ih (get_adjacents c)
            (b.setCell c (b.grid c.1 c.2 ||| SWEEPED))
          simp only [sweep_adjacent_cells] at hch ⊢
          omega
        · rw [sweep_cell_go_stop n b c h1 h2 h3]
          dsimp only
          omega

/-! ### Fuel beyond the number of unswept cells is irrelevant -/

theorem sweepChain_congr (f₁ f₂ m : Nat)
    (H : ∀ (b : Board) (c : Int × Int), unsweptCount b ≤ m →
      sweep_cell f₁ b c = sweep_cell f₂ b c) :
    ∀ (cs : List (Int × Int)) (b : Board), unsweptCount b ≤ m →
      sweepChain f₁ b cs = sweepChain f₂ b cs := by
  intro cs
  induction cs with
  | nil => intro b _; rfl
  | cons c cs ih =>
    intro b hb
    simp only [sweepChain]
    rw [H b c hb]
    have h2 : unsweptCount (sweep_cell f₂ b c).2 ≤ m :=
      le_trans (unsweptCount_sweep_cell_le f₂ b c) hb
    rw [ih _ h2]

theorem sweep_cell_congr : ∀ (n f₁ f₂ : Nat) (b : Board) (c : Int × Int),
    unsweptCount b ≤ n → n < f₁ → n < f₂ → sweep_cell f₁ b c = sweep_cell f₂ b c := by
  intro n
  induction n with
  | zero =>
    intro f₁ f₂ b c hb h1 h2
    obtain ⟨g₁, rfl⟩ : ∃ g, f₁ = g + 1 := ⟨f₁ - 1, by omega⟩
    obtain ⟨g₂, rfl⟩ : ∃ g, f₂ = g + 1 := ⟨f₂ - 1, by omega⟩
    by_cases hoob : c.1 < 0 ∨ (b.height : Int) ≤ c.1 ∨ c.2 < 0 ∨ (b.width : Int) ≤ c.2
    · rw [sweep_cell_oob g₁ b c hoob, sweep_cell_oob g₂ b c hoob]
    · have hbounds := hoob
      push_neg at hbounds
      have hsw : b.grid c.1 c.2 &&& SWEEPED ≠ 0 :=
        swept_of_unsweptCount_zero b (by omega) c.1 c.2 (by omega) (by omega) (by omega)
          (by omega)
      rw [sweep_cell_stop g₁ b c hoob (Or.inl hsw), sweep_cell_stop g₂ b c hoob (Or.inl hsw)]
  | succ n ih =>
    intro f₁ f₂ b c hb h1 h2
    obtain ⟨g₁, rfl⟩ : ∃ g, f₁ = g + 1 := ⟨f₁ - 1, by omega⟩
    obtain ⟨g₂, rfl⟩ : ∃ g, f₂ = g + 1 := ⟨f₂ - 1, by omega⟩
    by_cases hoob : c.1 < 0 ∨ (b.height : Int) ≤ c.1 ∨ c.2 < 0 ∨ (b.width : Int) ≤ c.2
    · rw [sweep_cell_oob g₁ b c hoob, sweep_cell_oob g₂ b c hoob]
    · by_cases hsf : b.grid c.1 c.2 &&& SWEEPED ≠ 0 ∨ b.grid c.1 c.2 &&& FLAGGED ≠ 0
      · rw [sweep_cell_stop g₁ b c hoob hsf, sweep_cell_stop g₂ b c hoob hsf]
      · have hun : b.grid c.1 c.2 &&& SWEEPED = 0 := by tauto
        have hbounds := hoob
        push_neg at hbounds
        have hdec : unsweptCount (b.setCell c (b.grid c.1 c.2 ||| SWEEPED)) + 1
            = unsweptCount b :=
          unsweptCount_setCell b c _ (by omega) (by omega) (by omega) (by omega) hun
            (lor_SWEEPED_test _)
        by_cases h3 : (b.setCell c (b.grid c.1 c.2 ||| SWEEPED)).cell_mines c = 0 ∧
            (b.setCell c (b.grid c.1 c.2 ||| SWEEPED)).count_adjacent c = 0
        · rw [sweep_cell_go_flood g₁ b c hoob hsf h3, sweep_cell_go_flood g₂ b c hoob hsf h3]
          have hb1 : unsweptCount (b.setCell c (b.grid c.1 c.2 ||| SWEEPED)) ≤ n := by omega
          have hch := sweepChain_congr g₁ g₂ n
            (fun b' c' hb' => ih g₁ g₂ b' c' hb' (by omega) (by omega))
            (get_adjacents c) (b.setCell c (b.grid c.1 c.2 ||| SWEEPED)) hb1
          simp only [sweep_adjacent_cells, hch]
        · rw [sweep_cell_go_stop g₁ b c hoob hsf h3, sweep_cell_go_stop g₂ b c hoob hsf h3]

/-! ### Characterising the win and loss queries -/

theorem npIndex_of_lt (n m : Nat) (h : m < n) : npIndex n (m : Int) = some m := by
  unfold npIndex
  rw [if_pos (show (0 : Int) ≤ (m : Int) ∧ (m : Int) < (n : Int) from ⟨by omega, by omega⟩)]
  simp

theorem cell_mines_in_bounds (b : Board) (i j : Nat) (hi : i < b.height) (hj : j < b.width) :
    b.cell_mines ((i : Int), (j : Int)) =
      if b.grid (i : Int) (j : Int) &&& MINE ≠ 0 then 1 else 0 := by
  unfold Board.cell_mines
  rw [if_neg]
  omega

theorem fully_sweeped_cell_iff (b : Board) (i j : Nat) (hi : i < b.height) (hj : j < b.width) :
    ((if b.grid (i : Int) (j : Int) &&& SWEEPED = 0 then
        decide (b.grid (i : Int) (j : Int) &&& FLAGGED ≠ 0) &&
          decide (0 < b.cell_mines ((i : Int), (j : Int)))
      else true) = true) ↔
    (b.grid (i : Int) (j : Int) &&& SWEEPED ≠ 0 ∨
     (b.grid (i : Int) (j : Int) &&& FLAGGED ≠ 0 ∧
      b.grid (i : Int) (j : Int) &&& MINE ≠ 0)) := by
  rw [cell_mines_in_bounds b i j hi hj]
  by_cases hs : b.grid (i : Int) (j : Int) &&& SWEEPED = 0
  · rw [if_pos hs]
    simp only [hs, ne_eq, not_true_eq_false, false_or, Bool.and_eq_true, decide_eq_true_eq]
    by_cases hm : b.grid (i : Int) (j : Int) &&& MINE ≠ 0 <;> simp [hm]
  · rw [if_neg hs]
    simp [hs]

theorem fully_sweeped_eq_true_iff (b : Board) :
    b.fully_sweeped = true ↔
      ∀ i : Nat, i < b.height → ∀ j : Nat, j < b.width →
        (b.grid (i : Int) (j : Int) &&& SWEEPED ≠ 0 ∨
         (b.grid (i : Int) (j : Int) &&& FLAGGED ≠ 0 ∧
          b.grid (i : Int) (j : Int) &&& MINE ≠ 0)) := by
  unfold Board.fully_sweeped
  simp only [List.all_eq_true, List.mem_range]
  constructor
  · intro H i hi j hj
    exact (fully_sweeped_cell_iff b i j hi hj).mp (H i hi j hj)
  · intro H i hi j hj
    exact (fully_sweeped_cell_iff b i j hi hj).mpr (H i hi j hj)

theorem mine_triggered_eq_true_iff (b : Board) :
    b.mine_triggered = true ↔
      ∃ i : Nat, i < b.height ∧ ∃ j : Nat, j < b.width ∧
        b.grid (i : Int) (j : Int) &&& SWEEPED ≠ 0 ∧
        b.grid (i : Int) (j : Int) &&& MINE ≠ 0 := by
  unfold Board.mine_triggered
  simp only [List.any_eq_true, List.mem_range, Bool.and_eq_true, decide_eq_true_eq]

/-! ### The cursor invariant -/

theorem move_cursor_board (c : Controller) (d : Int × Int) :
    (c.move_cursor d).board = c.board := by
  unfold Controller.move_cursor
  dsimp only
  split_ifs <;> rfl

theorem move_cursor_ok (c : Controller) (d : Int × Int) (h : c.cursor_ok) :
    (c.move_cursor d).cursor_ok := by
  obtain ⟨h1, h2, h3, h4⟩ := h
  unfold Controller.cursor_ok Controller.move_cursor
  try dsimp only
  by_cases ha : 0 ≤ c.cursor.1 + d.1 ∧ c.cursor.1 + d.1 < (c.board.height : Int)
  · rw [if_pos ha]
    try dsimp only
    by_cases hb : 0 ≤ c.cursor.2 + d.2 ∧ c.cursor.2 + d.2 < (c.board.width : Int)
    · rw [if_pos hb]
      try dsimp only
      omega
    · rw [if_neg hb]
      try dsimp only
      omega
  · rw [if_neg ha]
    try dsimp only
    by_cases hb : 0 ≤ c.cursor.2 + d.2 ∧ c.cursor.2 + d.2 < (c.board.width : Int)
    · rw [if_pos hb]
      try dsimp only
      omega
    · rw [if_neg hb]
      try dsimp only
      omega

theorem foldl_move_cursor_ok (ds : List (Int × Int)) :
    ∀ c : Controller, c.cursor_ok →
      (ds.foldl Controller.move_cursor c).cursor_ok ∧
        (ds.foldl Controller.move_cursor c).board = c.board := by
  induction ds with
  | nil => intro c h; exact ⟨h, rfl⟩
  | cons d ds ih =>
    intro c h
    simp only [List.foldl_cons]
    obtain ⟨hok, hb⟩ := ih (c.move_cursor d) (move_cursor_ok c d h)
    exact ⟨hok, by rw [hb, move_cursor_board]⟩

theorem controller_init_ok (b : Board) (hh : 0 < b.height) (hw : 0 < b.width) :
    (Controller.init b).cursor_ok := by
  unfold Controller.init Controller.cursor_ok
  dsimp only
  omega

/-! ### The key handler never consults the alive flag -/

theorem move_cursor_alive_indep (cur : Int × Int) (b : Board) (a₁ a₂ : Bool) (d : Int × Int) :
    ((Controller.mk cur b a₁).move_cursor d).board
        = ((Controller.mk cur b a₂).move_cursor d).board ∧
      ((Controller.mk cur b a₁).move_cursor d).cursor
        = ((Controller.mk cur b a₂).move_cursor d).cursor := by
  unfold Controller.move_cursor
  try dsimp only
  split_ifs <;> exact ⟨rfl, rfl⟩

theorem flag_alive_indep (cur : Int × Int) (b : Board) (a₁ a₂ : Bool) :
    (Controller.mk cur b a₁).flag.board = (Controller.mk cur b a₂).flag.board ∧
      (Controller.mk cur b a₁).flag.cursor = (Controller.mk cur b a₂).flag.cursor := by
  unfold Controller.flag Controller.get_cursor
  try dsimp only
  cases b.flag_cell (cur.1, cur.2) <;> exact ⟨rfl, rfl⟩

theorem sweep_one_alive_indep (cur : Int × Int) (b : Board) (a₁ a₂ : Bool) :
    (Controller.mk cur b a₁).sweep_one.board = (Controller.mk cur b a₂).sweep_one.board ∧
      (Controller.mk cur b a₁).sweep_one.cursor = (Controller.mk cur b a₂).sweep_one.cursor := by
  unfold Controller.sweep_one Controller.explode_maybe Controller.get_cursor
  try dsimp only
  split_ifs <;> exact ⟨rfl, rfl⟩

theorem sweep_many_alive_indep (cur : Int × Int) (b : Board) (a₁ a₂ : Bool) :
    (Controller.mk cur b a₁).sweep_many.board = (Controller.mk cur b a₂).sweep_many.board ∧
      (Controller.mk cur b a₁).sweep_many.cursor = (Controller.mk cur b a₂).sweep_many.cursor := by
  unfold Controller.sweep_many Controller.explode_maybe Controller.get_cursor
  try dsimp only
  split_ifs <;> exact ⟨rfl, rfl⟩

/-! ### Claim theorems -/

/-- C1, corrected: `Controller.key_press` never consults the `alive` flag.
For every key code, the resulting board, cursor and continue flag are
identical whether `alive` is true or false, so sweep, chord, flag and
cursor commands keep acting on the board and cursor after the session has
died; the `q` arm is likewise available in both states. -/
theorem key_press_ignores_alive (cur : Int × Int) (b : Board) (a₁ a₂ : Bool) (k : Nat) :
    ((Controller.mk cur b a₁).key_press k).1.board
        = ((Controller.mk cur b a₂).key_press k).1.board ∧
      ((Controller.mk cur b a₁).key_press k).1.cursor
        = ((Controller.mk cur b a₂).key_press k).1.cursor ∧
      ((Controller.mk cur b a₁).key_press k).2
        = ((Controller.mk cur b a₂).key_press k).2 := by
  unfold Controller.key_press
  split_ifs
  · exact ⟨(move_cursor_alive_indep cur b a₁ a₂ (0, -1)).1,
      (move_cursor_alive_indep cur b a₁ a₂ (0, -1)).2, rfl⟩
  · exact ⟨(move_cursor_alive_indep cur b a₁ a₂ (0, 1)).1,
      (move_cursor_alive_indep cur b a₁ a₂ (0, 1)).2, rfl⟩
  · exact ⟨(move_cursor_alive_indep cur b a₁ a₂ (-1, 0)).1,
      (move_cursor_alive_indep cur b a₁ a₂ (-1, 0)).2, rfl⟩
  · exact ⟨(move_cursor_alive_indep cur b a₁ a₂ (1, 0)).1,
      (move_cursor_alive_indep cur b a₁ a₂ (1, 0)).2, rfl⟩
  · exact ⟨(flag_alive_indep cur b a₁ a₂).1, (flag_alive_indep cur b a₁ a₂).2, rfl⟩
  · exact ⟨(sweep_one_alive_indep cur b a₁ a₂).1, (sweep_one_alive_indep cur b a₁ a₂).2, rfl⟩
  · exact ⟨(sweep_many_alive_indep cur b a₁ a₂).1, (sweep_many_alive_indep cur b a₁ a₂).2, rfl⟩
  · exact ⟨rfl, rfl, rfl⟩
  · exact ⟨rfl, rfl, rfl⟩

/-- C1 counterexample: a dead session (`alive = false`, the mine at `(0,0)`
already swept) still processes the flag key 120: the board cell under the
cursor changes from 0 to `FLAGGED`, so commands are not ignored after
death. -/
theorem key_press_flag_mutates_after_death :
    (Controller.mk (0, 1)
        { height := 1, width := 2, grid := fun i j => if i = 0 ∧ j = 0 then 5 else 0 }
        false).alive = false ∧
      ((Controller.mk (0, 1)
          { height := 1, width := 2, grid := fun i j => if i = 0 ∧ j = 0 then 5 else 0 }
          false).key_press 120).1.board.grid 0 1 = FLAGGED ∧
      ({ height := 1, width := 2,
          grid := fun i j => if i = 0 ∧ j = 0 then 5 else 0 } : Board).grid 0 1 = 0 := by
  refine ⟨rfl, ?_, rfl⟩
  rfl

/-- C2 counterexample: on a 1-by-1 board whose only cell is swept (state 1),
`flag_cell (0, 0)` is not ignored: the swept cell moves to state 3, that is
`SWEEPED` plus `FLAGGED`. -/
theorem flag_cell_changes_swept_cell :
    ((({ height := 1, width := 1, grid := fun _ _ => 1 } : Board).flag_cell (0, 0)).map
      (fun b => b.grid 0 0)) = Except.ok 3 := rfl

/-- C2, corrected: `flag_cell` never checks the `SWEPT` bit.  At any
in-bounds coordinate -- including one whose cell is already swept -- it
toggles the `FLAGGED` bit with xor, and the toggle always changes the cell
state. -/
theorem flag_cell_toggles_on_swept (b : Board) (i j : Nat)
    (hi : i < b.height) (hj : j < b.width)
    (hs : b.grid (i : Int) (j : Int) &&& SWEEPED ≠ 0) :
    b.flag_cell ((i : Int), (j : Int))
        = Except.ok (b.setCell ((i : Int), (j : Int))
            (b.grid (i : Int) (j : Int) ^^^ FLAGGED)) ∧
      b.grid (i : Int) (j : Int) ^^^ FLAGGED ≠ b.grid (i : Int) (j : Int) := by
  constructor
  · unfold Board.flag_cell
    rw [npIndex_of_lt b.height i hi, npIndex_of_lt b.width j hj]
  · intro hEq
    have h2 : (b.grid (i : Int) (j : Int) ^^^ FLAGGED) ^^^ b.grid (i : Int) (j : Int)
        = b.grid (i : Int) (j : Int) ^^^ b.grid (i : Int) (j : Int) := by rw [hEq]
    rw [Nat.xor_comm (b.grid (i : Int) (j : Int)) FLAGGED, Nat.xor_assoc,
      Nat.xor_self] at h2
    simp [FLAGGED] at h2

theorem flag_cell_toggles_on_swept_witness :
    (0 < ({ height := 1, width := 1, grid := fun _ _ => 1 } : Board).height ∧
      0 < ({ height := 1, width := 1, grid := fun _ _ => 1 } : Board).width ∧
      ({ height := 1, width := 1, grid := fun _ _ => 1 } : Board).grid
          ((0 : Nat) : Int) ((0 : Nat) : Int) &&& SWEEPED ≠ 0) ∧
    (({ height := 1, width := 1, grid := fun _ _ => 1 } : Board).flag_cell
          (((0 : Nat) : Int), ((0 : Nat) : Int))
        = Except.ok (({ height := 1, width := 1, grid := fun _ _ => 1 } : Board).setCell
            (((0 : Nat) : Int), ((0 : Nat) : Int))
            (({ height := 1, width := 1, grid := fun _ _ => 1 } : Board).grid
              ((0 : Nat) : Int) ((0 : Nat) : Int) ^^^ FLAGGED)) ∧
      ({ height := 1, width := 1, grid := fun _ _ => 1 } : Board).grid
            ((0 : Nat) : Int) ((0 : Nat) : Int) ^^^ FLAGGED
        ≠ ({ height := 1, width := 1, grid := fun _ _ => 1 } : Board).grid
            ((0 : Nat) : Int) ((0 : Nat) : Int)) :=
  ⟨⟨by decide, by decide, by decide⟩,
   flag_cell_toggles_on_swept { height := 1, width := 1, grid := fun _ _ => 1 } 0 0
     (by decide) (by decide) (by decide)⟩

/-- C4 counterexample: `flag_cell` is not total on out-of-bounds input: on a
1-by-1 board the coordinate `(1, 0)` raises `IndexError` instead of having
no effect. -/
theorem flag_cell_out_of_bounds_errors :
    ({ height := 1, width := 1, grid := fun _ _ => 0 } : Board).flag_cell (1, 0)
      = Except.error PyError.indexError := rfl

/-- C4, corrected: the queries and sweep commands are total -- out of
bounds, `cell_mines` returns 0 and `sweep_cell` returns 0 with the board
unchanged, for every fuel -- but `flag_cell` has no bounds check of its
own: a row coordinate at or beyond `height` raises `IndexError` (the
column axis behaves symmetrically, and negative coordinates down to
`-height` wrap to the opposite edge, as numpy indexing does). -/
theorem board_ops_out_of_bounds (b : Board) (coord : Int × Int) (fuel : Nat)
    (h : coord.1 < 0 ∨ (b.height : Int) ≤ coord.1 ∨ coord.2 < 0 ∨ (b.width : Int) ≤ coord.2) :
    b.cell_mines coord = 0 ∧ sweep_cell fuel b coord = (0, b) ∧
      ((b.height : Int) ≤ coord.1 →
        b.flag_cell coord = Except.error PyError.indexError) := by
  refine ⟨?_, ?_, ?_⟩
  · unfold Board.cell_mines
    rw [if_pos h]
  · cases fuel with
    | zero => rfl
    | succ n => exact sweep_cell_oob n b coord h
  · intro hh
    unfold Board.flag_cell npIndex
    rw [if_neg (show ¬(0 ≤ coord.1 ∧ coord.1 < (b.height : Int)) by omega),
      if_neg (show ¬(-(b.height : Int) ≤ coord.1 ∧ coord.1 < 0) by omega)]

theorem board_ops_out_of_bounds_witness :
    ((1 : Int) < 0 ∨
        (({ height := 1, width := 1, grid := fun _ _ => 0 } : Board).height : Int) ≤ 1 ∨
        (0 : Int) < 0 ∨
        (({ height := 1, width := 1, grid := fun _ _ => 0 } : Board).width : Int) ≤ 0) ∧
      (({ height := 1, width := 1, grid := fun _ _ => 0 } : Board).cell_mines (1, 0) = 0 ∧
        sweep_cell 3 { height := 1, width := 1, grid := fun _ _ => 0 } (1, 0)
          = (0, { height := 1, width := 1, grid := fun _ _ => 0 }) ∧
        ((({ height := 1, width := 1, grid := fun _ _ => 0 } : Board).height : Int) ≤ 1 →
          ({ height := 1, width := 1, grid := fun _ _ => 0 } : Board).flag_cell (1, 0)
            = Except.error PyError.indexError)) :=
  ⟨by decide,
   board_ops_out_of_bounds { height := 1, width := 1, grid := fun _ _ => 0 } (1, 0) 3
     (by decide)⟩

/-- C5, confirmed: `fully_sweeped` is true exactly when every cell is swept
or is an unswept flagged mine; equivalently, exactly when every non-mine
cell is swept and every mine cell is swept or flagged.  An unswept flagged
non-mine cell falsifies it, because `cell_mines` is 0 there. -/
theorem fully_sweeped_characterization (b : Board) :
    (b.fully_sweeped = true ↔
      ∀ i : Nat, i < b.height → ∀ j : Nat, j < b.width →
        (b.grid (i : Int) (j : Int) &&& SWEEPED ≠ 0 ∨
         (b.grid (i : Int) (j : Int) &&& FLAGGED ≠ 0 ∧
          b.grid (i : Int) (j : Int) &&& MINE ≠ 0))) ∧
    (b.fully_sweeped = true ↔
      ((∀ i : Nat, i < b.height → ∀ j : Nat, j < b.width →
          b.grid (i : Int) (j : Int) &&& MINE = 0 →
            b.grid (i : Int) (j : Int) &&& SWEEPED ≠ 0) ∧
       (∀ i : Nat, i < b.height → ∀ j : Nat, j < b.width →
          b.grid (i : Int) (j : Int) &&& MINE ≠ 0 →
            (b.grid (i : Int) (j : Int) &&& SWEEPED ≠ 0 ∨
             b.grid (i : Int) (j : Int) &&& FLAGGED ≠ 0)))) := by
  refine ⟨fully_sweeped_eq_true_iff b, ?_⟩
  rw [fully_sweeped_eq_true_iff b]
  constructor
  · intro H
    constructor
    · intro i hi j hj hm
      rcases H i hi j hj with hs | ⟨hf, hm'⟩
      · exact hs
      · exact absurd hm hm'
    · intro i hi j hj hm
      rcases H i hi j hj with hs | ⟨hf, hm'⟩
      · exact Or.inl hs
      · exact Or.inr hf
  · rintro ⟨H1, H2⟩ i hi j hj
    by_cases hm : b.grid (i : Int) (j : Int) &&& MINE = 0
    · exact Or.inl (H1 i hi j hj hm)
    · rcases H2 i hi j hj hm with hs | hf
      · exact Or.inl hs
      · exact Or.inr ⟨hf, hm⟩

/-- C6, confirmed: `sweep_cell` returns 0 and leaves the board unchanged
whenever the coordinate is out of bounds, or the cell there already has the
`SWEEPED` bit, or has the `FLAGGED` bit. -/
theorem sweep_cell_noop (b : Board) (coord : Int × Int) (fuel : Nat)
    (h : coord.1 < 0 ∨ (b.height : Int) ≤ coord.1 ∨ coord.2 < 0 ∨ (b.width : Int) ≤ coord.2 ∨
      b.grid coord.1 coord.2 &&& SWEEPED ≠ 0 ∨ b.grid coord.1 coord.2 &&& FLAGGED ≠ 0) :
    sweep_cell fuel b coord = (0, b) := by
  cases fuel with
  | zero => rfl
  | succ n =>
    by_cases hoob : coord.1 < 0 ∨ (b.height : Int) ≤ coord.1 ∨ coord.2 < 0 ∨
        (b.width : Int) ≤ coord.2
    · exact sweep_cell_oob n b coord hoob
    · have hsf : b.grid coord.1 coord.2 &&& SWEEPED ≠ 0 ∨
          b.grid coord.1 coord.2 &&& FLAGGED ≠ 0 := by tauto
      exact sweep_cell_stop n b coord hoob hsf

theorem sweep_cell_noop_witness :
    ((0 : Int) < 0 ∨
        (({ height := 1, width := 1, grid := fun _ _ => 1 } : Board).height : Int) ≤ 0 ∨
        (0 : Int) < 0 ∨
        (({ height := 1, width := 1, grid := fun _ _ => 1 } : Board).width : Int) ≤ 0 ∨
        ({ height := 1, width := 1, grid := fun _ _ => 1 } : Board).grid 0 0 &&& SWEEPED ≠ 0 ∨
        ({ height := 1, width := 1, grid := fun _ _ => 1 } : Board).grid 0 0 &&& FLAGGED ≠ 0) ∧
      sweep_cell 5 { height := 1, width := 1, grid := fun _ _ => 1 } (0, 0)
        = (0, { height := 1, width := 1, grid := fun _ _ => 1 }) :=
  ⟨by decide,
   sweep_cell_noop { height := 1, width := 1, grid := fun _ _ => 1 } (0, 0) 5 (by decide)⟩

/-- C3, confirmed: on the 3-by-3 board with its single mine at `(0, 0)`,
sweeping `(2, 2)` flood-fills all 8 non-mine cells to `SWEEPED` while
`(0, 0)` keeps only its `MINE` bit (unswept); after the fill
`fully_sweeped` is false, and after additionally flagging `(0, 0)` it is
true. -/
theorem flood_fill_scenario_3x3 :
    (sweep_cell 10 board3 (2, 2)).2.grid 0 0 = MINE ∧
      (sweep_cell 10 board3 (2, 2)).2.grid 0 1 = SWEEPED ∧
      (sweep_cell 10 board3 (2, 2)).2.grid 0 2 = SWEEPED ∧
      (sweep_cell 10 board3 (2, 2)).2.grid 1 0 = SWEEPED ∧
      (sweep_cell 10 board3 (2, 2)).2.grid 1 1 = SWEEPED ∧
      (sweep_cell 10 board3 (2, 2)).2.grid 1 2 = SWEEPED ∧
      (sweep_cell 10 board3 (2, 2)).2.grid 2 0 = SWEEPED ∧
      (sweep_cell 10 board3 (2, 2)).2.grid 2 1 = SWEEPED ∧
      (sweep_cell 10 board3 (2, 2)).2.grid 2 2 = SWEEPED ∧
      (sweep_cell 10 board3 (2, 2)).2.fully_sweeped = false ∧
      (((sweep_cell 10 board3 (2, 2)).2.flag_cell (0, 0)).map Board.fully_sweeped)
        = Except.ok true :=
  ⟨rfl, rfl, rfl, rfl, rfl, rfl, rfl, rfl, rfl, rfl, rfl⟩

/-- C7, confirmed: the flood-fill recursion is bounded by the cell count.
Any fuel of at least `height * width` gives the same result as the fuel
`height * width` itself, for `sweep_cell` and for `sweep_adjacent_cells`,
because each recursive descent first turns an unswept cell into a swept one
and there are at most `height * width` such cells (`unsweptCount_le`);
the `SWEPT` check is the base case that prevents re-entry. -/
theorem sweep_cell_fuel_bounded (b : Board) (coord : Int × Int) (fuel : Nat)
    (h : b.height * b.width ≤ fuel) :
    sweep_cell (fuel + 1) b coord = sweep_cell (b.height * b.width + 1) b coord ∧
      sweep_adjacent_cells (fuel + 1) b coord
        = sweep_adjacent_cells (b.height * b.width + 1) b coord := by
  have hn := unsweptCount_le b
  constructor
  · exact sweep_cell_congr (b.height * b.width) (fuel + 1) (b.height * b.width + 1) b coord
      hn (by omega) (by omega)
  · unfold sweep_adjacent_cells
    exact sweepChain_congr (fuel + 1) (b.height * b.width + 1) (b.height * b.width)
      (fun b' c' hb' => sweep_cell_congr (b.height * b.width) (fuel + 1)
        (b.height * b.width + 1) b' c' hb' (by omega) (by omega))
      (get_adjacents coord) b hn

theorem sweep_cell_fuel_bounded_witness :
    board3.height * board3.width ≤ 12 ∧
      (sweep_cell (12 + 1) board3 (2, 2)
          = sweep_cell (board3.height * board3.width + 1) board3 (2, 2) ∧
        sweep_adjacent_cells (12 + 1) board3 (2, 2)
          = sweep_adjacent_cells (board3.height * board3.width + 1) board3 (2, 2)) :=
  ⟨by decide, sweep_cell_fuel_bounded board3 (2, 2) 12 (by decide)⟩

/-- C8 counterexample: constructing a board with height 0 does not fail at
all: `Board.init (0, 5)` succeeds and returns an empty grid, while the
claim requires an `InvalidDimension` failure for every dimension at most
0. -/
theorem board_init_zero_dims_succeeds :
    Board.init (0, 5) = Except.ok { height := 0, width := 5, grid := fun _ _ => 0 } := rfl

/-- C8, corrected: `Board.__init__` performs no dimension validation and no
`InvalidDimension` error exists in the program.  A negative dimension fails
with `ValueError` raised by `np.zeros`; a zero dimension succeeds with an
empty grid; nonnegative dimensions allocate a `height * width` grid with
every cell 0. -/
theorem board_init_no_validation (h w : Int) :
    ((h < 0 ∨ w < 0) → Board.init (h, w) = Except.error PyError.valueError) ∧
      (0 ≤ h → 0 ≤ w →
        Board.init (h, w)
          = Except.ok { height := h.toNat, width := w.toNat, grid := fun _ _ => 0 }) := by
  constructor
  · intro hneg
    unfold Board.init
    dsimp only
    rw [if_pos hneg]
  · intro hh hw
    unfold Board.init
    dsimp only
    rw [if_neg (show ¬(h < 0 ∨ w < 0) by omega)]

theorem board_init_no_validation_witness :
    Board.init (-1, 3) = Except.error PyError.valueError ∧
      Board.init (2, 3)
        = Except.ok (Board.mk (2 : Int).toNat (3 : Int).toNat fun _ _ => 0) :=
  ⟨(board_init_no_validation (-1) 3).1 (Or.inl (by decide)),
   (board_init_no_validation 2 3).2 (by decide) (by decide)⟩

/-- C9, confirmed: on a board with positive dimensions the cursor starts at
the centre `(height / 2, width / 2)` by floor division, and after any
sequence of `move_cursor` calls the board is untouched and the cursor is
still inside `[0, height) x [0, width)`: each axis is updated only when the
moved value stays in range. -/
theorem cursor_stays_in_bounds (b : Board) (ds : List (Int × Int))
    (hh : 0 < b.height) (hw : 0 < b.width) :
    (Controller.init b).cursor
        = (((b.height / 2 : Nat) : Int), ((b.width / 2 : Nat) : Int)) ∧
      (ds.foldl Controller.move_cursor (Controller.init b)).board = b ∧
      0 ≤ (ds.foldl Controller.move_cursor (Controller.init b)).cursor.1 ∧
      (ds.foldl Controller.move_cursor (Controller.init b)).cursor.1 < (b.height : Int) ∧
      0 ≤ (ds.foldl Controller.move_cursor (Controller.init b)).cursor.2 ∧
      (ds.foldl Controller.move_cursor (Controller.init b)).cursor.2 < (b.width : Int) := by
  obtain ⟨hok, hb⟩ := foldl_move_cursor_ok ds (Controller.init b) (controller_init_ok b hh hw)
  have hb' : (ds.foldl Controller.move_cursor (Controller.init b)).board = b := hb
  unfold Controller.cursor_ok at hok
  rw [hb'] at hok
  obtain ⟨h1, h2, h3, h4⟩ := hok
  exact ⟨rfl, hb', h1, h2, h3, h4⟩

theorem cursor_stays_in_bounds_witness :
    0 < board3.height ∧ 0 < board3.width ∧
      ((Controller.init board3).cursor
          = (((board3.height / 2 : Nat) : Int), ((board3.width / 2 : Nat) : Int)) ∧
        (([(-5, 0), (0, 7), (1, 1)] : List (Int × Int)).foldl Controller.move_cursor
            (Controller.init board3)).board = board3 ∧
        0 ≤ (([(-5, 0), (0, 7), (1, 1)] : List (Int × Int)).foldl Controller.move_cursor
            (Controller.init board3)).cursor.1 ∧
        (([(-5, 0), (0, 7), (1, 1)] : List (Int × Int)).foldl Controller.move_cursor
            (Controller.init board3)).cursor.1 < (board3.height : Int) ∧
        0 ≤ (([(-5, 0), (0, 7), (1, 1)] : List (Int × Int)).foldl Controller.move_cursor
            (Controller.init board3)).cursor.2 ∧
        (([(-5, 0), (0, 7), (1, 1)] : List (Int × Int)).foldl Controller.move_cursor
            (Controller.init board3)).cursor.2 < (board3.width : Int)) :=
  ⟨by decide, by decide,
   cursor_stays_in_bounds board3 [(-5, 0), (0, 7), (1, 1)] (by decide) (by decide)⟩

/-- C10, confirmed: the win and loss predicates overlap.  On any board in
which every in-bounds cell has the `SWEEPED` bit and some in-bounds cell
has the `MINE` bit -- the state `reveal_all_mines` produces when every
non-mine cell was already swept -- `fully_sweeped` and `mine_triggered`
are both true. -/
theorem fully_sweeped_and_mine_triggered_overlap (b : Board)
    (hall : ∀ i ∈ List.range b.height, ∀ j ∈ List.range b.width,
      b.grid (i : Int) (j : Int) &&& SWEEPED ≠ 0)
    (hmine : ∃ i ∈ List.range b.height, ∃ j ∈ List.range b.width,
      b.grid (i : Int) (j : Int) &&& MINE ≠ 0) :
    b.fully_sweeped = true ∧ b.mine_triggered = true := by
  constructor
  · rw [fully_sweeped_eq_true_iff]
    intro i hi j hj
    exact Or.inl (hall i (List.mem_range.mpr hi) j (List.mem_range.mpr hj))
  · rw [mine_triggered_eq_true_iff]
    obtain ⟨i, hi, j, hj, hm⟩ := hmine
    exact ⟨i, List.mem_range.mp hi, j, List.mem_range.mp hj, hall i hi j hj, hm⟩

theorem fully_sweeped_and_mine_triggered_overlap_witness :
    ((∀ i ∈ List.range ({ height := 1, width := 1, grid := fun _ _ => 5 } : Board).height,
        ∀ j ∈ List.range ({ height := 1, width := 1, grid := fun _ _ => 5 } : Board).width,
          ({ height := 1, width := 1, grid := fun _ _ => 5 } : Board).grid
              (i : Int) (j : Int) &&& SWEEPED ≠ 0) ∧
      (∃ i ∈ List.range ({ height := 1, width := 1, grid := fun _ _ => 5 } : Board).height,
        ∃ j ∈ List.range ({ height := 1, width := 1, grid := fun _ _ => 5 } : Board).width,
          ({ height := 1, width := 1, grid := fun _ _ => 5 } : Board).grid
              (i : Int) (j : Int) &&& MINE ≠ 0)) ∧
      (({ height := 1, width := 1, grid := fun _ _ => 5 } : Board).fully_sweeped = true ∧
        ({ height := 1, width := 1, grid := fun _ _ => 5 } : Board).mine_triggered = true) :=
  ⟨⟨by decide, by decide⟩,
   fully_sweeped_and_mine_triggered_overlap { height := 1, width := 1, grid := fun _ _ => 5 }
     (by decide) (by decide)⟩

end Mines
